import Mathlib

/-
Verification of synapse/handlers/events.py.

Part 1 models the presence-accounting state of EventStreamHandler.get_stream
for a single tracked user: the entry in _streams_per_user (an Option Int,
because nothing in the code keeps the stored value nonnegative), the entry in
_stop_timer_per_user (the handle of the pending grace timer, identified by its
absolute fire time), the set of underlying scheduled _later callbacks still
armed in the clock, and counters of how often the "started_user_eventstream"
and "stopped_user_eventstream" signals have been fired for this user.

The external collaborators (distributor, clock) are out of scope per the spec;
their contracts are taken from the spec: distributor.fire may fail and the
failure propagates to the caller; clock.cancel_call_later may fail; a timer
scheduled with clock.call_later d fires no earlier than d time units after the
time of scheduling.

Part 2 models the pure data flow of the body of get_stream (room-scope
resolution, timeout jitter, chunk assembly) and of EventHandler.get_event.
Python int() truncation of the float products timeout*0.9 and timeout*1.1 is
modelled as exact natural division 9*t/10 and 11*t/10 (truncation toward zero
equals floor for nonnegative values; the float rounding error of 0.9 and 1.1
does not move these products across an integer for realistic timeouts).
-/

namespace Synapse

/-- Grace delay passed to clock.call_later before firing the stopped signal
(the literal 30 on line 135 of events.py). -/
def graceDelay : Nat := 30

/-- Presence-accounting state of EventStreamHandler for one tracked user. -/
structure SessionState where
  /-- current clock time -/
  now : Nat
  /-- the entry of this user in the _streams_per_user dict, none when absent -/
  streams_per_user : Option Int
  /-- the entry of this user in the _stop_timer_per_user dict: the handle of
  the scheduled _later call, identified by its absolute fire time -/
  stop_timer_per_user : Option Nat
  /-- fire times of _later callbacks scheduled in the clock and not yet fired
  or cancelled -/
  armed : List Nat
  /-- number of times the started_user_eventstream signal has fired -/
  started_fired : Nat
  /-- number of times the stopped_user_eventstream signal has fired -/
  stopped_fired : Nat
deriving DecidableEq, Repr

/-- Entry block of get_stream (lines 61 to 75 of events.py). Returns the
updated state and whether the block completed: false means the
started_user_eventstream fire raised, so the increment on line 75 was skipped
and the exception propagates into the finally block. A failure of
clock.cancel_call_later (cancelOk = false) is swallowed: the handle was
already popped from _stop_timer_per_user, but the underlying callback stays
armed. -/
def enterSession (fireOk cancelOk : Bool) (s : SessionState) :
    SessionState × Bool :=
  match s.streams_per_user with
  | some n => ({ s with streams_per_user := some (n + 1) }, true)
  | none =>
    let s0 := { s with streams_per_user := some (0 : Int) }
    match s0.stop_timer_per_user with
    | some h =>
      let s1 := { s0 with
        stop_timer_per_user := none,
        armed := if cancelOk then s0.armed.erase h else s0.armed }
      ({ s1 with streams_per_user := some 1 }, true)
    | none =>
      if fireOk then
        ({ s0 with
            streams_per_user := some 1,
            started_fired := s0.started_fired + 1 }, true)
      else (s0, false)

/-- Finally block of get_stream (lines 115 to 137 of events.py): decrement;
if the value is now 0 (Python not 0 is True, not of any other int is False),
delete the entry and schedule the _later callback after graceDelay, storing
its handle. The none case would be a KeyError in Python and is guarded at the
event level. -/
def exitSession (s : SessionState) : SessionState :=
  match s.streams_per_user with
  | none => s
  | some n =>
    if n - 1 = 0 then
      { s with
        streams_per_user := none,
        stop_timer_per_user := some (s.now + graceDelay),
        armed := (s.now + graceDelay) :: s.armed }
    else { s with streams_per_user := some (n - 1) }

/-- Body of the _later callback (lines 126 to 133 of events.py): pop the
user's handle from _stop_timer_per_user (with default, so never raising),
then fire the stopped_user_eventstream signal; if the fire fails the pop has
already happened. -/
def laterCallback (fireOk : Bool) (s : SessionState) : SessionState :=
  let s1 := { s with stop_timer_per_user := none }
  if fireOk then { s1 with stopped_fired := s1.stopped_fired + 1 } else s1

/-- Outcome of the body of a get_stream call between the entry block and the
finally block: success, or a failure at one of the suspension points, or
external cancellation of the call. -/
inductive Outcome where
  | ok
  | roomResFail
  | notifierFail
  | serializeFail
  | cancelled
deriving DecidableEq, Repr

/-- Result observed by the caller of get_stream. -/
inductive CallResult where
  | success
  | failed (o : Outcome)
  | startedFireError
deriving DecidableEq, Repr

/-- Whole get_stream call as a transformer of the presence-accounting state
(lines 60 to 137 of events.py): the try block runs the entry accounting only
when affect_presence is true, then the body with outcome o; the finally block
runs the exit accounting (again only when affect_presence is true) on every
path, including the path where the started fire raised inside the entry
block. -/
def get_stream (affect_presence fireOk cancelOk : Bool) (o : Outcome)
    (s : SessionState) : SessionState × CallResult :=
  let entry :=
    if affect_presence then enterSession fireOk cancelOk s else (s, true)
  let s1 := entry.1
  if entry.2 then
    let result := match o with
      | Outcome.ok => CallResult.success
      | o => CallResult.failed o
    (if affect_presence then exitSession s1 else s1, result)
  else
    (if affect_presence then exitSession s1 else s1,
     CallResult.startedFireError)

/-- Events of the per-user presence state machine. enter is the entry block
of a call whose started fire (if attempted) succeeds; failedEnter is a whole
get_stream call whose started fire raised (entry block plus the finally that
the propagating exception triggers); exit is the finally block of a call
whose entry completed; tick advances the clock; fire runs an armed _later
callback once its fire time has been reached. -/
inductive Ev where
  | enter (cancelOk : Bool)
  | failedEnter
  | exit
  | tick (d : Nat)
  | fire (t : Nat) (fireOk : Bool)

/-- Whether an event is an entry of a new get_stream call for the user. -/
def isEnter : Ev → Bool
  | Ev.enter _ => true
  | Ev.failedEnter => true
  | _ => false

/-- Trace contains no get_stream entry for the user. -/
def no_enter (tr : List Ev) : Bool := tr.all fun e => !(isEnter e)

/-- Small-step semantics of the state machine; none when the event is not
enabled in the given state. -/
def step (s : SessionState) : Ev → Option SessionState
  | Ev.enter cOk => some (enterSession true cOk s).1
  | Ev.failedEnter =>
    match enterSession false true s with
    | (s1, false) => some (exitSession s1)
    | (_, true) => none
  | Ev.exit =>
    match s.streams_per_user with
    | some _ => some (exitSession s)
    | none => none
  | Ev.tick d => some { s with now := s.now + d }
  | Ev.fire t fOk =>
    if t ∈ s.armed ∧ t ≤ s.now then
      some (laterCallback fOk { s with armed := s.armed.erase t })
    else none

/-- Run a trace of events from a state. -/
def run (s : SessionState) : List Ev → Option SessionState
  | [] => some s
  | e :: tr => (step s e).bind fun s1 => run s1 tr

/-- Initial state: user absent from both dicts, no armed timer, no signal
fired yet. -/
def initState : SessionState :=
  { now := 0, streams_per_user := none, stop_timer_per_user := none,
    armed := [], started_fired := 0, stopped_fired := 0 }

/- Part 2: pure data flow of the get_stream body and of get_event. -/

/-- Lower end of the randint range on line 94 of events.py: int(timeout*0.9)
after timeout = max(timeout, 500). -/
def jitterLo (T : Nat) : Nat := 9 * max T 500 / 10

/-- Upper end of the randint range on line 94 of events.py: int(timeout*1.1)
after timeout = max(timeout, 500). -/
def jitterHi (T : Nat) : Nat := 11 * max T 500 / 10

/-- Timeout handed to the notifier (lines 88 to 94 of events.py): 0 passes
through unmodified; otherwise clamp to a minimum of 500 and redraw with
randint over the closed range from jitterLo to jitterHi. The randint oracle
stands for random.randint. -/
def jitteredTimeout (randint : Nat → Nat → Nat) (timeout : Nat) : Nat :=
  if timeout ≠ 0 then randint (jitterLo timeout) (jitterHi timeout)
  else timeout

/-- Values the jittered timeout can take for a given input, randint being
uniform over its closed range. -/
def PossibleTimeout (T r : Nat) : Prop :=
  if T = 0 then r = 0 else jitterLo T ≤ r ∧ r ≤ jitterHi T

instance (T r : Nat) : Decidable (PossibleTimeout T r) := by
  unfold PossibleTimeout; infer_instance

/-- Row returned by store.get_app_service_rooms, carrying a room_id field. -/
structure RoomEntry where
  room_id : String
deriving DecidableEq, Repr

/-- Serialized chunk returned by get_stream (lines 107 to 111 of events.py);
the stop field models the dict key written as end, a reserved word here. -/
structure Chunk where
  chunk : List String
  start : String
  stop : String
deriving DecidableEq, Repr

/-- External collaborators of the get_stream body, with app services, events,
tokens and serialized events abstracted as strings. -/
structure Collab where
  get_app_service_by_user_id : String → Option String
  get_app_service_rooms : String → List RoomEntry
  get_joined_rooms_for_user : String → Finset String
  get_events_for : String → Finset String → String → Nat → Bool →
    List String × (String × String)
  time_msec : Nat
  serialize_event : String → Nat → Bool → String
  randint : Nat → Nat → Nat

/-- Room scope resolution (lines 79 to 86 of events.py): the deduplicated
room ids of the user's app service when one is bound, else the set of rooms
the user has joined. -/
def room_ids_for (c : Collab) (auth_user : String) : Finset String :=
  match c.get_app_service_by_user_id auth_user with
  | some app_service =>
    ((c.get_app_service_rooms app_service).map RoomEntry.room_id).toFinset
  | none => c.get_joined_rooms_for_user auth_user

/-- Data flow forming the result chunk in get_stream (lines 77 to 113
of events.py): resolve the room scope, jitter the timeout, call the notifier,
serialize each event with the current time and the as_client_event flag, and
assemble the dict with keys chunk, start and end. -/
def get_stream_chunk (c : Collab) (auth_user pagin_config : String)
    (timeout : Nat) (as_client_event only_room_events : Bool) : Chunk :=
  let room_ids := room_ids_for c auth_user
  let timeout1 := jitteredTimeout c.randint timeout
  let r := c.get_events_for auth_user room_ids pagin_config timeout1
    only_room_events
  let events := r.1
  let tokens := r.2
  let time_now := c.time_msec
  let chunks := events.map fun e => c.serialize_event e time_now
    as_client_event
  { chunk := chunks, start := tokens.1, stop := tokens.2 }

/-- Concrete collaborator instance for evaluating the chunk assembly on the
scenario of the spec: no app service, joined rooms A and B, a notifier that
returns two events and the token pair t1, t2. -/
def collabW : Collab where
  get_app_service_by_user_id := fun _ => none
  get_app_service_rooms := fun _ => []
  get_joined_rooms_for_user := fun _ => {"A", "B"}
  get_events_for := fun _ _ _ _ _ => (["e1", "e2"], ("t1", "t2"))
  time_msec := 1234
  serialize_event := fun e _ _ => e ++ "-ser"
  randint := fun a _ => a

/-- Event as stored; room_id is none when the object has no room_id
attribute (hasattr on line 163 of events.py). -/
structure StoredEvent where
  room_id : Option String
  content : String
deriving DecidableEq, Repr

/-- Failure of get_event: the AuthError raised by auth.check_joined_room. -/
inductive EventError where
  | authError
deriving DecidableEq, Repr

/-- EventHandler.get_event (lines 142 to 166 of events.py): fetch the event
from the store; if absent return none; if the event carries a room_id run the
membership check, failing with AuthError when it fails; return the event. -/
def get_event (store : String → Option StoredEvent)
    (check_joined_room : String → String → Bool)
    (user event_id : String) : Except EventError (Option StoredEvent) :=
  match store event_id with
  | none => Except.ok none
  | some event =>
    match event.room_id with
    | some rid =>
      if check_joined_room rid user then Except.ok (some event)
      else Except.error EventError.authError
    | none => Except.ok (some event)

/- Helper lemmas about the state machine, shared by several claims. -/

theorem enterSession_now (f c : Bool) (s : SessionState) :
    ((enterSession f c s).1).now = s.now := by
  obtain ⟨n0, str, sh, ar, st, sp⟩ := s
  cases str <;> cases sh <;> cases f <;> rfl

theorem exitSession_now (s : SessionState) : (exitSession s).now = s.now := by
  obtain ⟨n0, str, sh, ar, st, sp⟩ := s
  cases str with
  | none => rfl
  | some n =>
    dsimp only [exitSession]
    split <;> rfl

theorem laterCallback_now (f : Bool) (s : SessionState) :
    (laterCallback f s).now = s.now := by
  cases f <;> rfl

theorem step_now_le {s s1 : SessionState} {e : Ev} (h : step s e = some s1) :
    s.now ≤ s1.now := by
  cases e with
  | enter cOk =>
    simp only [step, Option.some.injEq] at h
    rw [← h, enterSession_now]
  | failedEnter =>
    simp only [step] at h
    rcases he : enterSession false true s with ⟨s2, b⟩
    rw [he] at h
    cases b with
    | false =>
      simp only [Option.some.injEq] at h
      have h2 : s2.now = s.now := by
        have := enterSession_now false true s
        rw [he] at this; exact this
      rw [← h, exitSession_now, h2]
    | true => simp at h
  | exit =>
    simp only [step] at h
    cases hs : s.streams_per_user with
    | none => rw [hs] at h; simp at h
    | some n =>
      rw [hs] at h
      simp only [Option.some.injEq] at h
      rw [← h, exitSession_now]
  | tick d =>
    simp only [step, Option.some.injEq] at h
    rw [← h]; exact Nat.le_add_right _ _
  | fire t fOk =>
    simp only [step] at h
    split at h
    · simp only [Option.some.injEq] at h
      rw [← h, laterCallback_now]
    · simp at h

theorem run_now_le (tr : List Ev) : ∀ {s s1 : SessionState},
    run s tr = some s1 → s.now ≤ s1.now := by
  induction tr with
  | nil =>
    intro s s1 h
    simp only [run, Option.some.injEq] at h
    rw [h]
  | cons e tr ih =>
    intro s s1 h
    rw [run] at h
    rcases hstep : step s e with _ | s2
    · rw [hstep] at h; simp at h
    · rw [hstep] at h
      simp only [Option.some_bind] at h
      exact le_trans (step_now_le hstep) (ih h)

theorem stopped_only_after (b : Nat) (tr : List Ev) :
    ∀ {s s1 : SessionState},
      (∀ t ∈ s.armed, t = b) → s.streams_per_user = none →
      no_enter tr = true → run s tr = some s1 →
      s.stopped_fired < s1.stopped_fired → b ≤ s1.now := by
  induction tr with
  | nil =>
    intro s s1 _ _ _ hrun hlt
    simp only [run, Option.some.injEq] at hrun
    rw [hrun] at hlt
    omega
  | cons e tr ih =>
    intro s s1 hinv hstr hne hrun hlt
    rw [run] at hrun
    cases e with
    | enter cOk => simp [no_enter, isEnter] at hne
    | failedEnter => simp [no_enter, isEnter] at hne
    | exit => rw [step, hstr] at hrun; simp at hrun
    | tick d =>
      have hne' : no_enter tr = true := by
        simpa [no_enter, isEnter] using hne
      rw [step] at hrun
      simp only [Option.some_bind] at hrun
      exact ih (s := { s with now := s.now + d }) hinv hstr hne' hrun hlt
    | fire t fOk =>
      rw [step] at hrun
      split at hrun
      · rename_i hcond
        obtain ⟨hmem, hle⟩ := hcond
        have hb : t = b := hinv t hmem
        simp only [Option.some_bind] at hrun
        have h2 := run_now_le tr hrun
        rw [laterCallback_now] at h2
        have h3 : ({ s with armed := s.armed.erase t } : SessionState).now
            = s.now := rfl
        rw [h3] at h2
        omega
      · simp at hrun

/-- C1: evaluation of the presence accounting on concrete call sequences.
For completed calls the count is balanced: two enters and one exit leave the
count at 1 (never negative along the way), and the matching second exit
removes the entry and schedules the stop timer. But for a call whose
started_user_eventstream fire raises, the claim fails on the code: the entry
was initialised to 0, the increment was skipped, and the finally block
decrements the entry to -1; since -1 is truthy the entry is never deleted, so
after N = 1 enter and M = 1 exit the count is -1 instead of N - M = 0, the
count is negative, and a further balanced successful call leaves it at -1
permanently. -/
theorem c1_accounting_eval :
    run initState [Ev.enter true, Ev.enter true, Ev.exit]
      = some { now := 0, streams_per_user := some 1,
               stop_timer_per_user := none, armed := [],
               started_fired := 1, stopped_fired := 0 } ∧
    run initState [Ev.enter true, Ev.enter true, Ev.exit, Ev.exit]
      = some { now := 0, streams_per_user := none,
               stop_timer_per_user := some graceDelay, armed := [graceDelay],
               started_fired := 1, stopped_fired := 0 } ∧
    run initState [Ev.failedEnter]
      = some { now := 0, streams_per_user := some (-1),
               stop_timer_per_user := none, armed := [],
               started_fired := 0, stopped_fired := 0 } ∧
    run initState [Ev.failedEnter, Ev.enter true, Ev.exit]
      = some { now := 0, streams_per_user := some (-1),
               stop_timer_per_user := none, armed := [],
               started_fired := 0, stopped_fired := 0 } := by
  refine ⟨?_, ?_, ?_, ?_⟩ <;> rfl

/-- C5: with affect_presence true and a completed entry block, the finally
block runs the session-exit accounting on every exit path of get_stream:
whatever the outcome of the body (normal return, failure of room resolution,
of the notifier or of serialization, or external cancellation), a call
entered from an idle state ends with the count entry removed, the stop timer
handle stored, and the stop callback armed at the grace delay. -/
theorem c5_exit_accounting_all_paths (s : SessionState) (cancelOk : Bool)
    (o : Outcome) (h1 : s.streams_per_user = none)
    (h2 : s.stop_timer_per_user = none) :
    (get_stream true true cancelOk o s).1.streams_per_user = none ∧
    (get_stream true true cancelOk o s).1.stop_timer_per_user
      = some (s.now + graceDelay) ∧
    (s.now + graceDelay) ∈ (get_stream true true cancelOk o s).1.armed := by
  obtain ⟨n0, str, sh, ar, st, sp⟩ := s
  have h1' : str = none := h1
  have h2' : sh = none := h2
  subst h1'
  subst h2'
  exact ⟨rfl, rfl, List.mem_cons_self _ _⟩

/-- Witness for C5 at a concrete idle state and the cancellation outcome. -/
theorem c5_exit_accounting_all_paths_witness :
    (get_stream true true true Outcome.cancelled
        initState).1.streams_per_user = none ∧
    (get_stream true true true Outcome.cancelled
        initState).1.stop_timer_per_user = some (initState.now + graceDelay) ∧
    (initState.now + graceDelay)
      ∈ (get_stream true true true Outcome.cancelled initState).1.armed :=
  c5_exit_accounting_all_paths initState true Outcome.cancelled rfl rfl

/-- C6: error policy of the entry block. A failure of the stop-timer
cancellation during entry is swallowed: the result seen by the caller is the
same as when cancellation succeeds, and a call with a successful body still
succeeds. A failure while firing the started_user_eventstream signal
propagates to the caller. No other delegated failure is swallowed: every
failing body outcome surfaces unchanged as the result of the call. -/
theorem c6_error_policy :
    (∀ (s : SessionState) (h : Nat) (o : Outcome),
      s.streams_per_user = none → s.stop_timer_per_user = some h →
      (get_stream true true false o s).2 = (get_stream true true true o s).2 ∧
      (get_stream true true false Outcome.ok s).2 = CallResult.success) ∧
    (∀ (s : SessionState) (cancelOk : Bool) (o : Outcome),
      s.streams_per_user = none → s.stop_timer_per_user = none →
      (get_stream true false cancelOk o s).2 = CallResult.startedFireError) ∧
    (∀ (s : SessionState) (cancelOk : Bool) (o : Outcome),
      o ≠ Outcome.ok →
      (get_stream true true cancelOk o s).2 = CallResult.failed o) := by
  refine ⟨?_, ?_, ?_⟩
  · intro s h o h1 h2
    obtain ⟨n0, str, sh, ar, st, sp⟩ := s
    have h1' : str = none := h1
    have h2' : sh = some h := h2
    subst h1'
    subst h2'
    exact ⟨rfl, rfl⟩
  · intro s cancelOk o h1 h2
    obtain ⟨n0, str, sh, ar, st, sp⟩ := s
    have h1' : str = none := h1
    have h2' : sh = none := h2
    subst h1'
    subst h2'
    rfl
  · intro s cancelOk o ho
    obtain ⟨n0, str, sh, ar, st, sp⟩ := s
    cases str <;> cases sh <;> cases o <;>
      first
      | exact absurd rfl ho
      | rfl

/-- Witness for C6 at concrete states: a pending-timer state with a failing
cancellation and a notifier failure, a fresh state with a failing started
fire, and a cancelled call. -/
theorem c6_error_policy_witness :
    ((get_stream true true false Outcome.notifierFail
        { now := 0, streams_per_user := none, stop_timer_per_user := some 30,
          armed := [30], started_fired := 0, stopped_fired := 0 }).2
      = (get_stream true true true Outcome.notifierFail
        { now := 0, streams_per_user := none, stop_timer_per_user := some 30,
          armed := [30], started_fired := 0, stopped_fired := 0 }).2) ∧
    (get_stream true false true Outcome.ok initState).2
      = CallResult.startedFireError ∧
    (get_stream true true true Outcome.cancelled initState).2
      = CallResult.failed Outcome.cancelled :=
  ⟨(c6_error_policy.1 _ 30 Outcome.notifierFail rfl rfl).1,
   c6_error_policy.2.1 initState true Outcome.ok rfl rfl,
   c6_error_policy.2.2 initState true Outcome.cancelled (by decide)⟩

/-- C10: with affect_presence false, get_stream leaves the shared session
state untouched on every outcome, success or failure: the state is returned
unchanged (no count mutation, no signal fired, no timer scheduled or
cancelled), and the result seen by the caller does not depend on the session
state at all, so the state is not even read. -/
theorem c10_frame (s s' : SessionState) (fireOk cancelOk : Bool)
    (o : Outcome) :
    (get_stream false fireOk cancelOk o s).1 = s ∧
    (get_stream false fireOk cancelOk o s).2
      = (get_stream false fireOk cancelOk o s').2 := by
  exact ⟨rfl, rfl⟩

/-- C2 counterexample: for requested timeout T = 1 the code clamps to 500 and
draws uniformly from 450 to 550, so 450 is a possible value of the timeout
used downstream (realised by the draw that returns the low end of the range),
and 450 violates the claimed lower bound max(500, floor(0.9 T)) = 500. -/
theorem c2_counterexample :
    PossibleTimeout 1 450 ∧
    jitteredTimeout (fun a _ => a) 1 = 450 ∧
    ¬ (max 500 (9 * 1 / 10) ≤ 450) := by
  refine ⟨by decide, by decide, by decide⟩

/-- C2 amended: for T at least 1 the timeout is redrawn by randint over the
closed range from int(0.9 t) to int(1.1 t) with t = max(T, 500) (int
truncates, so both ends are floors), hence the value used downstream lies
between floor(0.9 max(500, T)) and floor(1.1 max(500, T)), the latter being
at most ceil(1.1 max(500, T)); a timeout of 0 is passed through unmodified. -/
theorem c2_jitter_bounds (randint : Nat → Nat → Nat) (T : Nat)
    (hrand : ∀ a b, a ≤ b → a ≤ randint a b ∧ randint a b ≤ b)
    (hT : 1 ≤ T) :
    jitteredTimeout randint T = randint (jitterLo T) (jitterHi T) ∧
    jitterLo T ≤ jitteredTimeout randint T ∧
    jitteredTimeout randint T ≤ jitterHi T ∧
    jitterHi T ≤ (11 * max T 500 + 9) / 10 ∧
    jitteredTimeout randint 0 = 0 := by
  have hT0 : T ≠ 0 := by omega
  have hlohi : jitterLo T ≤ jitterHi T := by
    unfold jitterLo jitterHi
    exact Nat.div_le_div_right (by omega)
  have heq : jitteredTimeout randint T
      = randint (jitterLo T) (jitterHi T) := by
    simp [jitteredTimeout, hT0]
  obtain ⟨hl, hr⟩ := hrand _ _ hlohi
  refine ⟨heq, ?_, ?_, ?_, rfl⟩
  · rw [heq]; exact hl
  · rw [heq]; exact hr
  · unfold jitterHi
    exact Nat.div_le_div_right (by omega)

/-- Witness for C2 amended at T = 500 and the low-end draw. -/
theorem c2_jitter_bounds_witness :
    jitteredTimeout (fun a _ => a) 500
      = (fun (a : Nat) (_ : Nat) => a) (jitterLo 500) (jitterHi 500) ∧
    jitterLo 500 ≤ jitteredTimeout (fun a _ => a) 500 ∧
    jitteredTimeout (fun a _ => a) 500 ≤ jitterHi 500 ∧
    jitterHi 500 ≤ (11 * max 500 500 + 9) / 10 ∧
    jitteredTimeout (fun a _ => a) 0 = 0 :=
  c2_jitter_bounds (fun a _ => a) 500
    (fun a b h => ⟨Nat.le_refl a, h⟩) (by decide)

/-- C3: debounce. From a state with one active session, no pending stop
handle and no armed callback, the sequence exit, wait d less than the grace
delay, re-enter leaves the state exactly as it started except for the clock:
the stopped signal never fired, the started signal was not re-fired, the
pending stop handle was popped and its callback cancelled (so it can never
fire later), and the count is back at 1. Separately, a first entry with no
pending stop timer fires the started signal exactly once, before the count
increments to 1. -/
theorem c3_debounce :
    (∀ (s : SessionState) (d : Nat), s.streams_per_user = some 1 →
      s.stop_timer_per_user = none → s.armed = [] → d < graceDelay →
      run s [Ev.exit, Ev.tick d, Ev.enter true]
        = some { s with now := s.now + d }) ∧
    (∀ s : SessionState, s.streams_per_user = none →
      s.stop_timer_per_user = none →
      enterSession true true s
        = ({ s with streams_per_user := some 1,
                    started_fired := s.started_fired + 1 }, true)) := by
  constructor
  · intro s d h1 h2 h3 _
    obtain ⟨n0, str, sh, ar, st, sp⟩ := s
    have h1' : str = some 1 := h1
    have h2' : sh = none := h2
    have h3' : ar = [] := h3
    subst h1'; subst h2'; subst h3'
    simp [run, step, enterSession, exitSession]
  · intro s h1 h2
    obtain ⟨n0, str, sh, ar, st, sp⟩ := s
    have h1' : str = none := h1
    have h2' : sh = none := h2
    subst h1'; subst h2'
    rfl

/-- Witness for C3 at a concrete one-session state and d = 5. -/
theorem c3_debounce_witness :
    run { now := 0, streams_per_user := some 1, stop_timer_per_user := none,
          armed := [], started_fired := 1, stopped_fired := 0 }
        [Ev.exit, Ev.tick 5, Ev.enter true]
      = some { now := 0 + 5, streams_per_user := some 1,
               stop_timer_per_user := none, armed := [],
               started_fired := 1, stopped_fired := 0 } ∧
    enterSession true true initState
      = ({ initState with
             streams_per_user := some 1,
             started_fired := initState.started_fired + 1 }, true) :=
  ⟨c3_debounce.1 _ 5 rfl rfl rfl (by decide),
   c3_debounce.2 initState rfl rfl⟩

/-- C4: when an exit drops the count to 0 the entry is deleted, the handle of
a callback scheduled graceDelay = 30 time units ahead is stored, and the
callback is armed; the callback, when it runs, removes the handle (even when
its own stopped fire fails, showing the removal comes first) and then fires
the stopped signal; and along any continuation without a re-entry, the
stopped count can only grow once the clock has reached the scheduling time
plus the full grace delay. -/
theorem c4_grace_stop :
    (∀ s : SessionState, s.streams_per_user = some 1 →
      (exitSession s).streams_per_user = none ∧
      (exitSession s).stop_timer_per_user = some (s.now + graceDelay) ∧
      (exitSession s).armed = (s.now + graceDelay) :: s.armed) ∧
    (∀ (s : SessionState) (fireOk : Bool),
      (laterCallback fireOk s).stop_timer_per_user = none ∧
      (laterCallback fireOk s).stopped_fired
        = (if fireOk then s.stopped_fired + 1 else s.stopped_fired)) ∧
    (∀ (s s1 : SessionState) (tr : List Ev),
      s.streams_per_user = some 1 → s.armed = [] → no_enter tr = true →
      run (exitSession s) tr = some s1 →
      s.stopped_fired < s1.stopped_fired → s.now + graceDelay ≤ s1.now) := by
  refine ⟨?_, ?_, ?_⟩
  · intro s h1
    obtain ⟨n0, str, sh, ar, st, sp⟩ := s
    have h1' : str = some 1 := h1
    subst h1'
    exact ⟨rfl, rfl, rfl⟩
  · intro s fireOk
    cases fireOk <;> exact ⟨rfl, rfl⟩
  · intro s s1 tr h1 h2 hne hrun hlt
    obtain ⟨n0, str, sh, ar, st, sp⟩ := s
    have h1' : str = some 1 := h1
    have h2' : ar = [] := h2
    subst h1'; subst h2'
    refine stopped_only_after (n0 + graceDelay) tr ?_ rfl hne hrun hlt
    intro t ht
    have harm : (exitSession { now := n0, streams_per_user := some 1,
                               stop_timer_per_user := sh, armed := [],
                               started_fired := st,
                               stopped_fired := sp }).armed
        = [n0 + graceDelay] := rfl
    rw [harm] at ht
    simpa using ht

/-- Witness for C4: a concrete exit at time 0, a tick of 30, and the callback
firing at its scheduled time; the stopped count rose, at time 30 = 0 plus the
grace delay. -/
theorem c4_grace_stop_witness :
    (exitSession { now := 0, streams_per_user := some 1,
                   stop_timer_per_user := none, armed := [],
                   started_fired := 1,
                   stopped_fired := 0 }).streams_per_user = none ∧
    (laterCallback false initState).stop_timer_per_user = none ∧
    (0 : Nat) + graceDelay ≤ 30 :=
  ⟨(c4_grace_stop.1 { now := 0, streams_per_user := some 1,
                      stop_timer_per_user := none, armed := [],
                      started_fired := 1, stopped_fired := 0 } rfl).1,
   (c4_grace_stop.2.1 initState false).1,
   c4_grace_stop.2.2
     { now := 0, streams_per_user := some 1, stop_timer_per_user := none,
       armed := [], started_fired := 1, stopped_fired := 0 }
     { now := 30, streams_per_user := none, stop_timer_per_user := none,
       armed := [], started_fired := 1, stopped_fired := 1 }
     [Ev.tick 30, Ev.fire 30 true] rfl rfl rfl (by decide) (by decide)⟩

/-- C7: authorization gate of get_event. When the stored event carries a room
association, the call returns the event exactly when the membership check for
the user against that room succeeds, and fails with the authorization error
when the check fails; an event with no room association is returned with no
membership check. -/
theorem c7_auth_gate (store : String → Option StoredEvent)
    (check_joined_room : String → String → Bool) (user event_id : String)
    (e : StoredEvent) (hstore : store event_id = some e) :
    (∀ rid, e.room_id = some rid →
      ((get_event store check_joined_room user event_id
          = Except.ok (some e)) ↔ check_joined_room rid user = true) ∧
      (check_joined_room rid user = false →
        get_event store check_joined_room user event_id
          = Except.error EventError.authError)) ∧
    (e.room_id = none →
      get_event store check_joined_room user event_id
        = Except.ok (some e)) := by
  constructor
  · intro rid hrid
    have hg : get_event store check_joined_room user event_id
        = if check_joined_room rid user then Except.ok (some e)
          else Except.error EventError.authError := by
      simp only [get_event, hstore, hrid]
    rw [hg]
    constructor
    · cases hch : check_joined_room rid user <;> simp [hch]
    · intro hfalse
      rw [hfalse]
      simp
  · intro hnone
    simp only [get_event, hstore, hnone]

/-- Witness for C7 at a concrete store and both outcomes of the check. -/
theorem c7_auth_gate_witness :
    get_event (fun _ => some { room_id := some "roomA", content := "body" })
        (fun _ _ => false) "alice" "ev1"
      = Except.error EventError.authError ∧
    get_event (fun _ => some { room_id := some "roomA", content := "body" })
        (fun _ _ => true) "alice" "ev1"
      = Except.ok (some { room_id := some "roomA", content := "body" }) :=
  ⟨((c7_auth_gate (fun _ => some { room_id := some "roomA", content := "body" })
      (fun _ _ => false) "alice" "ev1"
      { room_id := some "roomA", content := "body" } rfl).1 "roomA" rfl).2 rfl,
   ((c7_auth_gate (fun _ => some { room_id := some "roomA", content := "body" })
      (fun _ _ => true) "alice" "ev1"
      { room_id := some "roomA", content := "body" } rfl).1 "roomA" rfl).1.mpr
      rfl⟩

/-- C8: get_event on an id absent from the store returns none inside a
success, never an error, and the result does not depend on the membership
check at all, so no authorization check is performed. -/
theorem c8_absent_event (store : String → Option StoredEvent)
    (chk chk' : String → String → Bool) (user event_id : String)
    (h : store event_id = none) :
    get_event store chk user event_id = Except.ok none ∧
    get_event store chk user event_id
      = get_event store chk' user event_id := by
  have h1 : get_event store chk user event_id = Except.ok none := by
    simp only [get_event, h]
  have h2 : get_event store chk' user event_id = Except.ok none := by
    simp only [get_event, h]
  exact ⟨h1, h1.trans h2.symm⟩

/-- Witness for C8 at the empty store and two different checks. -/
theorem c8_absent_event_witness :
    get_event (fun _ => none) (fun _ _ => true) "alice" "ev1"
      = Except.ok none ∧
    get_event (fun _ => none) (fun _ _ => true) "alice" "ev1"
      = get_event (fun _ => none) (fun _ _ => false) "alice" "ev1" :=
  c8_absent_event (fun _ => none) (fun _ _ => true) (fun _ _ => false)
    "alice" "ev1" rfl

/-- C9: chunk assembly. For a user with no app service whose notifier call
returns two events and the token pair, the room scope handed to the notifier
is the joined-room set, each event is serialized with the current wall-clock
time and the as_client_event flag, and the result is exactly the dict with
the serialized events under chunk and the two tokens under start and end; for
a user bound to an app service the room scope is instead the deduplicated set
of that service's configured rooms. -/
theorem c9_chunk_assembly (c : Collab) (auth_user pagin_config : String)
    (timeout : Nat) (as_client_event only_room_events : Bool) :
    (∀ (e1 e2 t1 t2 : String),
      c.get_app_service_by_user_id auth_user = none →
      c.get_events_for auth_user (c.get_joined_rooms_for_user auth_user)
          pagin_config (jitteredTimeout c.randint timeout) only_room_events
        = ([e1, e2], (t1, t2)) →
      get_stream_chunk c auth_user pagin_config timeout as_client_event
          only_room_events
        = { chunk := [c.serialize_event e1 c.time_msec as_client_event,
                      c.serialize_event e2 c.time_msec as_client_event],
            start := t1, stop := t2 }) ∧
    (∀ svc, c.get_app_service_by_user_id auth_user = some svc →
      room_ids_for c auth_user
        = ((c.get_app_service_rooms svc).map RoomEntry.room_id).toFinset) := by
  constructor
  · intro e1 e2 t1 t2 hsvc hnot
    have hroom : room_ids_for c auth_user
        = c.get_joined_rooms_for_user auth_user := by
      simp only [room_ids_for, hsvc]
    simp only [get_stream_chunk, hroom, hnot, List.map]
  · intro svc hsvc
    simp only [room_ids_for, hsvc]

/-- Witness for C9 on the spec's scenario with concrete collaborators. -/
theorem c9_chunk_assembly_witness :
    get_stream_chunk collabW "alice" "pc" 1000 true false
      = { chunk := [collabW.serialize_event "e1" collabW.time_msec true,
                    collabW.serialize_event "e2" collabW.time_msec true],
          start := "t1", stop := "t2" } :=
  (c9_chunk_assembly collabW "alice" "pc" 1000 true false).1
    "e1" "e2" "t1" "t2" rfl rfl

end Synapse
